import Mathlib

/-!
Verification development for the HomeSystem paper-gather pipeline.

Shallow embedding of:
* `PaperGatherTask.process_papers` / `save_paper_to_database` / `run`
  (HomeSystem/workflow/paper_gather_task/paper_gather_task.py)
* `ConfigVersionManager` and `CustomJSONEncoder`
  (HomeSystem/workflow/paper_gather_task/data_manager.py)
* `ArxivTool.directArxivSearch` / `searchPapersByMode` and
  `ArxivData.downloadPdf` (HomeSystem/utility/arxiv/arxiv.py)

External effects (database lookups, LLM scorers, the OCR engine, the network,
the clock) are modelled as explicit oracle inputs; scores are rationals;
byte strings are lists of naturals.
-/

namespace HomeSystem

/-- One pass of Python `str.replace` over the character list: every
occurrence of `pat` (left to right, non-overlapping) is replaced by
`rep`. The fuel argument (instantiated with the list length, an upper
bound on the number of steps) keeps the recursion structural. -/
def replaceCharsAux (pat rep : List Char) : Nat → List Char → List Char
  | 0, l => l
  | _ + 1, [] => []
  | fuel + 1, c :: rest =>
    if pat ≠ [] ∧ pat.isPrefixOf (c :: rest) then
      rep ++ replaceCharsAux pat rep fuel ((c :: rest).drop pat.length)
    else c :: replaceCharsAux pat rep fuel rest

/-- Python `str.replace` (all occurrences). -/
def strReplace (s pat rep : String) : String :=
  ⟨replaceCharsAux pat.data rep.data s.data.length s.data⟩

/-- Python `str.strip()`: drop whitespace from both ends. -/
def strTrim (s : String) : String :=
  ⟨((s.data.dropWhile Char.isWhitespace).reverse.dropWhile
    Char.isWhitespace).reverse⟩

/-- Python `str.startswith`. -/
def strStartsWith (s pre : String) : Bool :=
  pre.data.isPrefixOf s.data

/-- Python `str.endswith`. -/
def strEndsWith (s suf : String) : Bool :=
  suf.data.isSuffixOf s.data

/-- Python `c in s` for a single character. -/
def strContainsChar (s : String) (c : Char) : Bool :=
  s.data.contains c

/-- Result triple returned by `AbstractAnalysisLLM.analyze_abstract`. -/
structure AbstractAnalysisResult where
  is_relevant : Bool
  relevance_score : ℚ
  justification : String
deriving Repr, DecidableEq

/-- Result triple returned by `FullPaperAnalysisLLM.analyze_full_paper`. -/
structure FullAnalysisResult where
  is_relevant : Bool
  relevance_score : ℚ
  justification : String
deriving Repr, DecidableEq

/-- The projection of an existing `ArxivPaperModel` row that the dedupe branch
of `process_papers` reads: `processing_status` and
`metadata.get('final_relevance_score', 0.0)` (`none` models a row whose
metadata lacks the key or is null). -/
structure ExistingPaper where
  processing_status : String
  metadata_final_relevance_score : Option ℚ
deriving Repr, DecidableEq

/-- The `ArxivPaperModel` row built inside `save_paper_to_database`. -/
structure PaperModel where
  arxiv_id : String
  title : String
  authors : String
  abstract : String
  categories : String
  published_date : String
  pdf_url : String
  processing_status : String
  task_name : String
  task_id : Option String
  metadata_final_relevance_score : ℚ
  full_paper_relevance_score : Option ℚ
  full_paper_relevance_justification : String
  deep_analysis_result : Option String
  deep_analysis_status : Option String
deriving Repr, DecidableEq

/-- Observable side effects of one iteration of `process_papers`:
a database existence check, each external call, and a row creation. -/
inductive Event where
  | dbCheck : Event
  | abstractScore : Event
  | fetch : Event
  | ocr : Event
  | fullScore : Event
  | deepAnalyze : Event
  | saveAttempt : Event
  | dbCreate : PaperModel → Event
deriving Repr, DecidableEq

/-- In-memory `ArxivData` record as mutated by the pipeline: bibliographic
fields, the large optional buffers (`pdf`, `ocr_result`,
`paddle_ocr_result`, `paddle_ocr_images`), scoring slots and stage flags. -/
structure PaperState where
  title : String
  link : String
  snippet : String
  categories : String
  authors : String
  arxiv_id : String
  published_date : String
  pdf_link : String
  pdf : Option (List Nat)
  ocr_result : Option String
  paddle_ocr_result : Option String
  paddle_ocr_images : List (String × Nat)
  abstract_is_relevant : Bool
  abstract_relevance_score : ℚ
  abstract_analysis_justification : Option String
  full_paper_analyzed : Bool
  full_paper_is_relevant : Option Bool
  full_paper_relevance_score : Option ℚ
  full_paper_analysis_justification : Option String
  final_is_relevant : Bool
  final_relevance_score : ℚ
  deep_analysis_success : Bool
  deep_analysis_completed : Bool
  deep_analysis_result : Option String
  saved_to_database : Bool
deriving Repr, DecidableEq

/-- The slice of `PaperGatherTaskConfig` that `process_papers` and
`save_paper_to_database` read. -/
structure TaskCfg where
  relevance_threshold : ℚ
  enable_deep_analysis : Bool
  deep_analysis_threshold : ℚ
  ocr_char_limit_for_analysis : Nat
  task_name : String
  task_id : Option String
deriving Repr

/-- Oracles for the effectful steps inside `analyze_full_paper`:
`fetch = none` models `downloadPdf` raising, `ocr = none` models
`performOCR` raising, and `scorer` is the full-paper LLM on the
(truncated) OCR text, `none` modelling an exception. -/
structure FullEnv where
  fetch : Option (List Nat)
  ocr : Option String
  scorer : String → Option FullAnalysisResult

/-- One candidate paper as handed to `process_papers`: the bibliographic
fields of the fresh `ArxivData` plus the oracles for every external call
made while processing it. -/
structure PaperEnv where
  title : String
  link : String
  snippet : String
  categories : String
  authors : String
  arxiv_id : String
  published_date : String
  existing : Option ExistingPaper
  abstractOut : Option AbstractAnalysisResult
  full : FullEnv
  deepOk : Bool
  deepReport : String
  createOk : Bool

/-- Fresh `ArxivData` state at the top of one `process_papers` iteration,
including the flag initialisation performed by lines 559-562 of
`process_papers` (`saved_to_database`, `full_paper_analyzed`,
`deep_analysis_completed`, `deep_analysis_success`). -/
def initState (env : PaperEnv) : PaperState where
  title := env.title
  link := env.link
  snippet := env.snippet
  categories := env.categories
  authors := env.authors
  arxiv_id := env.arxiv_id
  published_date := env.published_date
  pdf_link := if env.link == "" then "" else strReplace env.link "abs" "pdf"
  pdf := none
  ocr_result := none
  paddle_ocr_result := none
  paddle_ocr_images := []
  abstract_is_relevant := false
  abstract_relevance_score := 0
  abstract_analysis_justification := none
  full_paper_analyzed := false
  full_paper_is_relevant := none
  full_paper_relevance_score := none
  full_paper_analysis_justification := none
  final_is_relevant := false
  final_relevance_score := 0
  deep_analysis_success := true
  deep_analysis_completed := false
  deep_analysis_result := none
  saved_to_database := false

/-- `PaperGatherTask.analyze_paper_relevance`: returns the scorer's triple,
or the fixed not-relevant triple when the scorer raises. -/
def analyze_paper_relevance (out : Option AbstractAnalysisResult) :
    AbstractAnalysisResult :=
  match out with
  | some r => r
  | none =>
      { is_relevant := false, relevance_score := 0,
        justification := "analysis error" }

/-- `PaperGatherTask.analyze_full_paper`: reuses an existing OCR result of at
least 500 stripped characters, otherwise downloads the PDF (setting `pdf`)
and runs structured OCR with a save path (setting `ocr_result`; the Paddle
image map goes to disk, not to memory, in this pathway). Returns the
updated record, the optional result (`none` on any failure or short OCR)
and the external calls performed. The scorer input is truncated to
`ocr_char_limit_for_analysis` characters. -/
def analyze_full_paper (cfg : TaskCfg) (st : PaperState) (fe : FullEnv) :
    PaperState × Option FullAnalysisResult × List Event :=
  let needOcr : Bool :=
    match st.ocr_result with
    | none => true
    | some s => s == "" || (strTrim s).length < 500
  if needOcr then
    match fe.fetch with
    | none => (st, none, [Event.fetch])
    | some bs =>
      let st1 := { st with pdf := some bs }
      match fe.ocr with
      | none => (st1, none, [Event.fetch, Event.ocr])
      | some s =>
        let st2 := { st1 with ocr_result := some s }
        if s == "" || (strTrim s).length < 500 then
          (st2, none, [Event.fetch, Event.ocr])
        else
          let limited :=
            if cfg.ocr_char_limit_for_analysis < s.length then
              s.take cfg.ocr_char_limit_for_analysis
            else s
          match fe.scorer limited with
          | none => (st2, none, [Event.fetch, Event.ocr, Event.fullScore])
          | some r => (st2, some r, [Event.fetch, Event.ocr, Event.fullScore])
  else
    let s := st.ocr_result.getD ""
    let limited :=
      if cfg.ocr_char_limit_for_analysis < s.length then
        s.take cfg.ocr_char_limit_for_analysis
      else s
    match fe.scorer limited with
    | none => (st, none, [Event.fullScore])
    | some r => (st, some r, [Event.fullScore])

/-- `PaperGatherTask.save_paper_to_database`: computes the deep-analysis
status (`completed` when a truthy result and the completed flag are set,
`failed` when the success flag is down), then builds the row. The required
full-paper justification raises `ValueError` when missing or blank, which
the surrounding `try` turns into `False` without any row creation.
`createOk` is the boolean returned by `db_ops.create`. -/
def save_paper_to_database (cfg : TaskCfg) (st : PaperState)
    (createOk : Bool) : Bool × List Event :=
  let resultTruthy : Bool :=
    match st.deep_analysis_result with
    | some s => s != ""
    | none => false
  let dstatus : Option String :=
    if resultTruthy && st.deep_analysis_completed then some "completed"
    else if !st.deep_analysis_success then some "failed"
    else none
  match st.full_paper_analysis_justification with
  | none => (false, [])
  | some j =>
    if strTrim j == "" then (false, [])
    else
      let m : PaperModel :=
        { arxiv_id := st.arxiv_id
          title := st.title
          authors := st.authors
          abstract := st.snippet
          categories := st.categories
          published_date := st.published_date
          pdf_url := st.pdf_link
          processing_status := "completed"
          task_name := cfg.task_name
          task_id := cfg.task_id
          metadata_final_relevance_score := st.final_relevance_score
          full_paper_relevance_score := st.full_paper_relevance_score
          full_paper_relevance_justification := j
          deep_analysis_result := st.deep_analysis_result
          deep_analysis_status := dstatus }
      (createOk, [Event.dbCreate m])

/-- One iteration of the loop in `PaperGatherTask.process_papers`:
dedupe check, abstract scoring, threshold-gated full-paper analysis,
threshold-gated deep analysis, threshold-gated persistence, and the final
buffer cleanup (`clearPdf`, `clearOcrResult`). A dedupe hit `continue`s
straight after copying the stored status and score and marking the paper
as saved. -/
def process_one_paper (cfg : TaskCfg) (env : PaperEnv) :
    PaperState × List Event :=
  let st0 := initState env
  match env.existing with
  | some ex =>
      ({ st0 with
          final_is_relevant := ex.processing_status == "completed"
          final_relevance_score := ex.metadata_final_relevance_score.getD 0
          saved_to_database := true },
        [Event.dbCheck])
  | none =>
    let a := analyze_paper_relevance env.abstractOut
    let st1 :=
      { st0 with
          abstract_is_relevant := a.is_relevant
          abstract_relevance_score := a.relevance_score
          abstract_analysis_justification := some a.justification
          final_is_relevant := a.is_relevant
          final_relevance_score := a.relevance_score }
    let step2 : PaperState × List Event :=
      if a.is_relevant && decide (cfg.relevance_threshold ≤ a.relevance_score) then
        let fa := analyze_full_paper cfg st1 env.full
        let stF := fa.1
        let evs := fa.2.2
        match fa.2.1 with
        | some f =>
          let stF1 :=
            { stF with
                full_paper_analyzed := true
                full_paper_is_relevant := some f.is_relevant
                full_paper_relevance_score := some f.relevance_score
                full_paper_analysis_justification := some f.justification
                final_is_relevant := f.is_relevant
                final_relevance_score := f.relevance_score }
          if f.is_relevant then
            if cfg.enable_deep_analysis &&
                decide (cfg.deep_analysis_threshold ≤ f.relevance_score) then
              if env.deepOk then
                ({ stF1 with
                    deep_analysis_result := some env.deepReport
                    deep_analysis_completed := true
                    deep_analysis_success := true },
                  evs ++ [Event.deepAnalyze])
              else
                ({ stF1 with deep_analysis_success := false },
                  evs ++ [Event.deepAnalyze])
            else (stF1, evs)
          else (stF1, evs)
        | none => (stF, evs)
      else (st1, [])
    let st2 := step2.1
    let step3 : PaperState × List Event :=
      if st2.final_is_relevant &&
          decide (cfg.relevance_threshold ≤ st2.final_relevance_score) then
        let sv := save_paper_to_database cfg st2 env.createOk
        ({ st2 with saved_to_database := sv.1 }, Event.saveAttempt :: sv.2)
      else
        ({ st2 with saved_to_database := false }, [])
    let st3 := step3.1
    ({ st3 with pdf := none, ocr_result := none },
      [Event.dbCheck, Event.abstractScore] ++ step2.2 ++ step3.2)

/-- `PaperGatherTask.process_papers` over the whole search result. -/
def process_papers (cfg : TaskCfg) (envs : List PaperEnv) :
    List (PaperState × List Event) :=
  envs.map (process_one_paper cfg)

/-- Final state of one processed paper. -/
def procState (cfg : TaskCfg) (env : PaperEnv) : PaperState :=
  (process_one_paper cfg env).1

/-- Events emitted while processing one paper. -/
def procEvents (cfg : TaskCfg) (env : PaperEnv) : List Event :=
  (process_one_paper cfg env).2

/-- The counters of the dictionary returned by `PaperGatherTask.run`. -/
structure RunSummary where
  total_papers : Nat
  relevant_papers : Nat
  saved_papers : Nat
deriving Repr, DecidableEq

/-- Counter computation of `PaperGatherTask.run` on the completed path:
`relevant_papers` counts final relevance against the threshold and
`saved_papers` counts the `saved_to_database` flag (an empty search result
yields the all-zero summary, matching the early return). -/
def runTask (cfg : TaskCfg) (envs : List PaperEnv) : RunSummary :=
  let processed := (process_papers cfg envs).map Prod.fst
  { total_papers := processed.length
    relevant_papers := processed.countP (fun p =>
      p.final_is_relevant && decide (cfg.relevance_threshold ≤ p.final_relevance_score))
    saved_papers := processed.countP (fun p => p.saved_to_database) }

end HomeSystem


namespace HomeSystem

/-- `ArxivSearchMode` enumeration (HomeSystem/utility/arxiv/arxiv.py). -/
inductive SearchMode where
  | LATEST
  | MOST_RELEVANT
  | RECENTLY_UPDATED
  | DATE_RANGE
  | AFTER_YEAR
deriving Repr, DecidableEq

/-- The `value` string of each `ArxivSearchMode` member. -/
def SearchMode.value : SearchMode → String
  | .LATEST => "latest"
  | .MOST_RELEVANT => "most_relevant"
  | .RECENTLY_UPDATED => "recently_updated"
  | .DATE_RANGE => "date_range"
  | .AFTER_YEAR => "after_year"

/-- `ArxivSearchMode(s)`: the member with the given value, `none` modelling
the `ValueError` of the enum constructor. -/
def SearchMode.ofValue (s : String) : Option SearchMode :=
  if s == "latest" then some .LATEST
  else if s == "most_relevant" then some .MOST_RELEVANT
  else if s == "recently_updated" then some .RECENTLY_UPDATED
  else if s == "date_range" then some .DATE_RANGE
  else if s == "after_year" then some .AFTER_YEAR
  else none

/-- A JSON-style value as held in a stored task configuration; `mode` is the
one non-JSON object that occurs there (`ArxivSearchMode`, handled by
`CustomJSONEncoder`). -/
inductive JValue where
  | null : JValue
  | bool : Bool → JValue
  | num : ℚ → JValue
  | str : String → JValue
  | arr : List JValue → JValue
  | dict : List (String × JValue) → JValue
  | mode : SearchMode → JValue

/-- An ordered keyed dictionary, as Python dicts are. -/
abbrev ConfigDict := List (String × JValue)

mutual
/-- Serialisation of one value through `json.dump` with
`CustomJSONEncoder`: an `ArxivSearchMode` becomes its `value` string, all
JSON-native values round-trip unchanged. -/
def encodeJ : JValue → JValue
  | .null => .null
  | .bool b => .bool b
  | .num q => .num q
  | .str s => .str s
  | .arr l => .arr (encodeArr l)
  | .dict l => .dict (encodeDict l)
  | .mode m => .str m.value

/-- `encodeJ` mapped over a JSON array. -/
def encodeArr : List JValue → List JValue
  | [] => []
  | v :: vs => encodeJ v :: encodeArr vs

/-- `encodeJ` mapped over the values of a JSON object. -/
def encodeDict : ConfigDict → ConfigDict
  | [] => []
  | (k, v) :: vs => (k, encodeJ v) :: encodeDict vs
end

mutual
/-- A value is JSON-pure when no `ArxivSearchMode` object occurs in it —
true of everything loaded from a JSON file. -/
def pureJ : JValue → Bool
  | .null => true
  | .bool _ => true
  | .num _ => true
  | .str _ => true
  | .arr l => pureArr l
  | .dict l => pureDict l
  | .mode _ => false

/-- `pureJ` over a JSON array. -/
def pureArr : List JValue → Bool
  | [] => true
  | v :: vs => pureJ v && pureArr vs

/-- `pureJ` over the values of a JSON object. -/
def pureDict : ConfigDict → Bool
  | [] => true
  | (_, v) :: vs => pureJ v && pureDict vs
end

/-- Python `d.get(key)`: first (and, in a real dict, only) binding. -/
def getVal : ConfigDict → String → Option JValue
  | [], _ => none
  | (k, v) :: rest, key => if k == key then some v else getVal rest key

/-- Python `d[key] = v`: replace the existing binding in place, else append. -/
def setKey : ConfigDict → String → JValue → ConfigDict
  | [], key, v => [(key, v)]
  | (k, w) :: rest, key, v =>
    if k == key then (key, v) :: rest else (k, w) :: setKey rest key v

/-- `ConfigVersionManager.CURRENT_VERSION`. -/
def CURRENT_VERSION : String := "1.2.0"

/-- The released version list used by `get_upgrade_path`. -/
def knownVersions : List String := ["1.0.0", "1.1.0", "1.2.0"]

/-- `ConfigVersionManager.VERSION_DEFAULTS`: the newly introduced fields and
their defaults, per released version. -/
def VERSION_DEFAULTS (v : String) : ConfigDict :=
  if v == "1.0.0" then
    [("interval_seconds", .num 3600),
     ("search_query", .str "machine learning"),
     ("max_papers_per_search", .num 20),
     ("user_requirements", .str "寻找机器学习和人工智能领域的最新研究论文"),
     ("llm_model_name", .str "ollama.Qwen3_30B"),
     ("relevance_threshold", .num (7/10)),
     ("max_papers_in_response", .num 50),
     ("max_relevant_papers_in_response", .num 10),
     ("enable_paper_summarization", .bool true),
     ("summarization_threshold", .num (8/10)),
     ("enable_translation", .bool true),
     ("custom_settings", .dict [])]
  else if v == "1.1.0" then
    [("search_mode", .str "latest"),
     ("start_year", .null),
     ("end_year", .null),
     ("after_year", .null)]
  else if v == "1.2.0" then
    [("abstract_analysis_model", .null),
     ("full_paper_analysis_model", .null),
     ("translation_model", .null),
     ("paper_analysis_model", .null)]
  else []

/-- `ConfigVersionManager.get_upgrade_path`: the slice
`versions[start_idx+1 : end_idx+1]`, an empty path when `start >= end`, and
`[CURRENT_VERSION]` when either version is not in the list (the
`ValueError` branch). -/
def get_upgrade_path (from_version to_version : String) : List String :=
  match knownVersions.findIdx? (· == from_version),
        knownVersions.findIdx? (· == to_version) with
  | some s, some e =>
      if e ≤ s then [] else (knownVersions.drop (s + 1)).take (e - s)
  | _, _ => [CURRENT_VERSION]

/-- One step of the default-application loop in
`ensure_config_compatibility`: write the default only when the key is
missing or bound to `None`. -/
def applyDefault (cfg : ConfigDict) (kd : String × JValue) : ConfigDict :=
  match getVal cfg kd.1 with
  | none => setKey cfg kd.1 kd.2
  | some .null => setKey cfg kd.1 kd.2
  | some _ => cfg

/-- All defaults of one version, applied in declaration order. -/
def applyVersionDefaults (cfg : ConfigDict) (ver : String) : ConfigDict :=
  (VERSION_DEFAULTS ver).foldl applyDefault cfg

/-- `ConfigVersionManager.ensure_config_compatibility`: read the stored
version tag (defaulting to `1.0.0`), apply the defaults of every version on
the upgrade path, stamp the current version, then re-hydrate a string
`search_mode` into the enum (invalid strings fall back to `LATEST`). -/
def ensure_config_compatibility (cfg : ConfigDict) : ConfigDict :=
  let version := (getVal cfg "_version").getD (.str "1.0.0")
  let path :=
    match version with
    | .str v => get_upgrade_path v CURRENT_VERSION
    | _ => [CURRENT_VERSION]
  let upgraded := path.foldl applyVersionDefaults cfg
  let stamped := setKey upgraded "_version" (.str CURRENT_VERSION)
  match getVal stamped "search_mode" with
  | some (.str s) =>
      setKey stamped "search_mode"
        (match SearchMode.ofValue s with
         | some m => .mode m
         | none => .mode .LATEST)
  | _ => stamped

/-- Storing a config to the task-history JSON file and loading it back:
every value is serialised by `encodeJ`. -/
def storeRoundTrip (cfg : ConfigDict) : ConfigDict := encodeDict cfg

/-- A stored version tag that is not a released version: a string outside
`knownVersions`, or a non-string value (a missing tag defaults to the
known `1.0.0`). -/
def versionUnknown (cfg : ConfigDict) : Bool :=
  match getVal cfg "_version" with
  | some (.str s) => !(knownVersions.contains s)
  | some _ => true
  | none => false

end HomeSystem

namespace HomeSystem

/-- One Atom feed entry as consumed by `directArxivSearch`. -/
structure FeedEntry where
  title : String
  link : String
  summary : String
  tags : List String
  authors : List String
deriving Repr, DecidableEq

/-- The normalized per-entry result dictionary built by
`directArxivSearch`. -/
structure ResultDict where
  title : String
  link : String
  snippet : String
  categories : String
  authors : String
deriving Repr, DecidableEq

/-- The parameters of one HTTP GET against the index query endpoint,
including the timeout handed to `requests.get`. -/
structure IndexRequest where
  search_query : String
  start : Nat
  max_results : Nat
  sortBy : String
  sortOrder : String
  timeout : Nat
deriving Repr, DecidableEq

/-- Network outcome of one index call: a transport error
(`requests.exceptions.RequestException`, including a timeout) or a parsed
feed. -/
inductive NetResult where
  | transportError : NetResult
  | feed : List FeedEntry → NetResult
deriving Repr, DecidableEq

/-- The `sort_map.get(sort_by, "relevance")` lookup. -/
def sort_map (s : String) : String :=
  if s == "relevance" then "relevance"
  else if s == "lastUpdatedDate" then "lastUpdatedDate"
  else if s == "submittedDate" then "submittedDate"
  else "relevance"

/-- Normalisation of one feed entry into the standard result dictionary
(`', '.join(...)` with an `Unknown` fallback for categories and
authors). -/
def entryToDict (e : FeedEntry) : ResultDict :=
  { title := e.title
    link := e.link
    snippet := e.summary
    categories :=
      if e.tags.isEmpty then "Unknown" else String.intercalate ", " e.tags
    authors :=
      if e.authors.isEmpty then "Unknown"
      else String.intercalate ", " e.authors }

/-- `ArxivTool.directArxivSearch`, with the Python recursion limit made
explicit as `fuel` and the network as an oracle indexed by the number of
HTTP calls already made. Returns the parsed result (`none` when the
recursion limit aborts the computation) and the HTTP requests issued, in
order. A zero-hit feed returns the empty result without error. On a
transport error the source falls back to `self.arxivSearch(query,
num_results, sort_by, "desc" if order == "descending" else "asc")`, and
`arxivSearch` hands the call straight back to `directArxivSearch` after
re-translating that flag to "descending"/"ascending". -/
def directArxivSearch (net : Nat → NetResult) :
    Nat → Nat → String → Nat → String → String →
    Option (List ResultDict) × List IndexRequest
  | 0, _, _, _, _, _ => (none, [])
  | fuel + 1, k, query, num_results, sort_by, order =>
    let req : IndexRequest :=
      { search_query := query
        start := 0
        max_results := min num_results 2000
        sortBy := sort_map sort_by
        sortOrder := order
        timeout := 30 }
    match net k with
    | .feed [] => (some [], [req])
    | .feed entries =>
        (some ((entries.take num_results).map entryToDict), [req])
    | .transportError =>
        let fallback_order := if order == "descending" then "desc" else "asc"
        let r := directArxivSearch net fuel (k + 1) query num_results sort_by
          (if fallback_order == "desc" then "descending" else "ascending")
        (r.1, req :: r.2)

/-- `ArxivTool.arxivSearch`: always delegates to `directArxivSearch`,
translating the order flag. -/
def arxivSearch (net : Nat → NetResult) (fuel k : Nat)
    (query : String) (num_results : Nat) (sort_by order : String) :
    Option (List ResultDict) × List IndexRequest :=
  directArxivSearch net fuel k query num_results sort_by
    (if order == "desc" then "descending" else "ascending")

/-- `ArxivTool.getLatestPapers`. -/
def getLatestPapers (net : Nat → NetResult) (fuel k : Nat)
    (query : String) (num_results : Nat) :
    Option (List ResultDict) × List IndexRequest :=
  arxivSearch net fuel k query num_results "submittedDate" "desc"

/-- `ArxivTool.getRecentlyUpdated`. -/
def getRecentlyUpdated (net : Nat → NetResult) (fuel k : Nat)
    (query : String) (num_results : Nat) :
    Option (List ResultDict) × List IndexRequest :=
  arxivSearch net fuel k query num_results "lastUpdatedDate" "desc"

/-- `ArxivTool.getMostRelevantPapers`. -/
def getMostRelevantPapers (net : Nat → NetResult) (fuel k : Nat)
    (query : String) (num_results : Nat) :
    Option (List ResultDict) × List IndexRequest :=
  directArxivSearch net fuel k query num_results "relevance" "descending"

/-- `ArxivTool.searchPapersByDateRange`: appends the documented
`submittedDate` range clause to the query. -/
def searchPapersByDateRange (net : Nat → NetResult) (fuel k : Nat)
    (query : String) (start_year end_year : Nat) (num_results : Nat) :
    Option (List ResultDict) × List IndexRequest :=
  let date_query := query ++ " AND submittedDate:[" ++ toString start_year ++
    "0101* TO " ++ toString end_year ++ "1231*]"
  directArxivSearch net fuel k date_query num_results "submittedDate"
    "descending"

/-- `ArxivTool.searchPapersAfterYear`: range from the given year to the
current year. -/
def searchPapersAfterYear (net : Nat → NetResult) (fuel k : Nat)
    (current_year : Nat) (query : String) (after_year : Nat)
    (num_results : Nat) : Option (List ResultDict) × List IndexRequest :=
  let date_query := query ++ " AND submittedDate:[" ++ toString after_year ++
    "0101* TO " ++ toString current_year ++ "1231*]"
  directArxivSearch net fuel k date_query num_results "submittedDate"
    "descending"

/-- `ArxivTool.searchPapersByMode`: the mode dispatch; `none` with no
requests models the `ValueError` raised for a range mode with missing
years. -/
def searchPapersByMode (net : Nat → NetResult) (fuel k current_year : Nat)
    (query : String) (mode : SearchMode) (num_results : Nat)
    (start_year end_year after_year : Option Nat) :
    Option (List ResultDict) × List IndexRequest :=
  match mode with
  | .LATEST => getLatestPapers net fuel k query num_results
  | .MOST_RELEVANT => getMostRelevantPapers net fuel k query num_results
  | .RECENTLY_UPDATED => getRecentlyUpdated net fuel k query num_results
  | .DATE_RANGE =>
    match start_year, end_year with
    | some sy, some ey =>
        searchPapersByDateRange net fuel k query sy ey num_results
    | _, _ => (none, [])
  | .AFTER_YEAR =>
    match after_year with
    | some ay =>
        searchPapersAfterYear net fuel k current_year query ay num_results
    | none => (none, [])

/-- `PaperGatherTask.search_papers`: dispatches on the configured search
mode and catches every exception, returning `ArxivResult([])` so the run
continues with an empty result. -/
def search_papers (net : Nat → NetResult) (fuel k current_year : Nat)
    (query : String) (mode : SearchMode) (num_results : Nat)
    (start_year end_year after_year : Option Nat) :
    List ResultDict × List IndexRequest :=
  match searchPapersByMode net fuel k current_year query mode num_results
      start_year end_year after_year with
  | (some r, reqs) => (r, reqs)
  | (none, reqs) => ([], reqs)

/-- A flat filesystem: absolute path to byte content. -/
structure FileSys where
  files : List (String × List Nat)
deriving Repr, DecidableEq

/-- Read a file (`none` when absent). -/
def FileSys.read (fs : FileSys) (p : String) : Option (List Nat) :=
  (fs.files.find? (fun f => f.1 == p)).map Prod.snd

/-- Write (create or overwrite) a file. -/
def FileSys.write (fs : FileSys) (p : String) (bs : List Nat) : FileSys :=
  if fs.files.any (fun f => f.1 == p) then
    ⟨fs.files.map (fun f => if f.1 == p then (p, bs) else f)⟩
  else ⟨fs.files ++ [(p, bs)]⟩

/-- Delete a file. -/
def FileSys.erase (fs : FileSys) (p : String) : FileSys :=
  ⟨fs.files.filter (fun f => f.1 != p)⟩

/-- `os.rename old new`. -/
def FileSys.rename (fs : FileSys) (old new : String) : FileSys :=
  match fs.read old with
  | none => fs
  | some c => (fs.erase old).write new c

/-- The illegal-character scrubbing `downloadPdf` applies to the title when
deriving the file name. -/
def sanitizeTitle (t : String) : String :=
  let t1 := strReplace t "/" "_"
  let t2 := strReplace t1 ":" "_"
  let t3 := strReplace t2 "*" "_"
  let t4 := strReplace t3 "?" "_"
  let t5 := strReplace t4 "\\" "_"
  let t6 := strReplace t5 "<" "_"
  let t7 := strReplace t6 ">" "_"
  strReplace t7 "|" "_"

/-- The fixed base directory of `ArxivData.get_paper_directory`. -/
def stdPaperBase : String := "/mnt/nfs_share/code/homesystem/data/paper_analyze"

/-- Outcome of a successful `ArxivData.downloadPdf`: the returned bytes, the
filesystem afterwards, the number of HTTP requests made (the `HEAD` plus
the streaming `GET` on a real download, zero on reuse of an existing
file), and the file path used, when any. -/
structure DownloadOutcome where
  bytes : List Nat
  fs : FileSys
  httpCalls : Nat
  path : Option String
deriving Repr, DecidableEq

/-- `ArxivData.downloadPdf`: derives the target path (from the sanitised
title under `save_path`; from the arxiv id under the fixed standard base
when `use_standard_path`), returns an existing file without any network
call when `check_existing` finds one, and otherwise downloads (`none`
models the raised download/IO exception), writing the file when a path was
derived. -/
def downloadPdf (title arxiv_id pdf_link : String)
    (save_path : Option String) (use_standard_path check_existing : Bool)
    (fs : FileSys) (net : Option (List Nat)) : Option DownloadOutcome :=
  if pdf_link == "" then none
  else
    let pdf_path : Option String :=
      match save_path with
      | some d =>
        let pdf_title := sanitizeTitle (if title == "" then "无标题" else title)
        some (d ++ "/" ++ pdf_title ++ ".pdf")
      | none =>
        if use_standard_path && arxiv_id != "" then
          some (stdPaperBase ++ "/" ++ arxiv_id ++ "/" ++ arxiv_id ++ ".pdf")
        else none
    let reuse : Option (List Nat) :=
      match pdf_path with
      | some p => if check_existing then fs.read p else none
      | none => none
    match reuse with
    | some content => some ⟨content, fs, 0, pdf_path⟩
    | none =>
      match net with
      | none => none
      | some bs =>
        match pdf_path with
        | some p => some ⟨bs, fs.write p bs, 2, some p⟩
        | none => some ⟨bs, fs, 2, none⟩

/-- Direct children of a folder carrying a `.pdf` suffix, in filesystem
order (`os.listdir` filtered as in the source). -/
def listPdfFiles (fs : FileSys) (folder : String) : List String :=
  (fs.files.map Prod.fst).filter (fun p =>
    strStartsWith p (folder ++ "/") && strEndsWith p ".pdf" &&
      !(strContainsChar (p.drop (folder ++ "/").length) '/'))

/-- `DeepAnalysisService._download_paper_pdf`: returns `True` at once when
`<paper_folder>/<arxiv_id>.pdf` already exists (no size check), otherwise
downloads via `downloadPdf(save_path=paper_folder)` — which names the file
after the title — then renames the first listed `.pdf` to the standard
name and checks it exists and is non-empty. -/
def download_paper_pdf (arxiv_id title : String) (paper_folder : String)
    (fs : FileSys) (net : Option (List Nat)) : Bool × FileSys :=
  let pdf_path := paper_folder ++ "/" ++ arxiv_id ++ ".pdf"
  match fs.read pdf_path with
  | some _ => (true, fs)
  | none =>
    let link := "https://arxiv.org/abs/" ++ arxiv_id
    let pdf_link := if link == "" then "" else strReplace link "abs" "pdf"
    match downloadPdf title arxiv_id pdf_link (some paper_folder)
        false false fs net with
    | none => (false, fs)
    | some out =>
      match listPdfFiles out.fs paper_folder with
      | [] => (false, out.fs)
      | f :: _ =>
        let fs2 := if f == pdf_path then out.fs else out.fs.rename f pdf_path
        match fs2.read pdf_path with
        | some c => (!(c.isEmpty), fs2)
        | none => (false, fs2)

end HomeSystem




namespace HomeSystem

/-! ### Helper lemmas about the per-paper pipeline -/

/-- `analyze_full_paper` only ever adds the downloaded bytes and the OCR
text to the record; every other field is untouched. -/
theorem analyze_full_paper_state (cfg : TaskCfg) (st : PaperState)
    (fe : FullEnv) :
    (analyze_full_paper cfg st fe).1 = st ∨
    (∃ bs, (analyze_full_paper cfg st fe).1 = { st with pdf := some bs }) ∨
    (∃ bs s, (analyze_full_paper cfg st fe).1 =
      { st with pdf := some bs, ocr_result := some s }) := by
  unfold analyze_full_paper
  dsimp only
  repeat' split
  all_goals simp

/-- The events of `analyze_full_paper` are fetches, OCR runs and full-text
scorings only. -/
theorem analyze_full_paper_events (cfg : TaskCfg) (st : PaperState)
    (fe : FullEnv) :
    ∀ e ∈ (analyze_full_paper cfg st fe).2.2,
      e = Event.fetch ∨ e = Event.ocr ∨ e = Event.fullScore := by
  unfold analyze_full_paper
  dsimp only
  repeat' split
  all_goals simp

end HomeSystem

namespace HomeSystem

/-- Uniform proof that `analyze_full_paper` preserves a record field. -/
theorem afp_preserves (cfg : TaskCfg) (st : PaperState) (fe : FullEnv)
    {α : Type} (f : PaperState → α)
    (h1 : ∀ t bs, f { t with pdf := some bs } = f t)
    (h2 : ∀ t s, f { t with ocr_result := some s } = f t) :
    f (analyze_full_paper cfg st fe).1 = f st := by
  rcases analyze_full_paper_state cfg st fe with h | ⟨bs, h⟩ | ⟨bs, s, h⟩
  · rw [h]
  · rw [h, h1]
  · rw [h]
    calc f { st with pdf := some bs, ocr_result := some s }
        = f { st with pdf := some bs } := h2 { st with pdf := some bs } s
      _ = f st := h1 st bs

@[simp] theorem afp_title (cfg : TaskCfg) (st : PaperState) (fe : FullEnv) :
    (analyze_full_paper cfg st fe).1.title = st.title :=
  afp_preserves cfg st fe PaperState.title (by intros; rfl) (by intros; rfl)

@[simp] theorem afp_link (cfg : TaskCfg) (st : PaperState) (fe : FullEnv) :
    (analyze_full_paper cfg st fe).1.link = st.link :=
  afp_preserves cfg st fe PaperState.link (by intros; rfl) (by intros; rfl)

@[simp] theorem afp_snippet (cfg : TaskCfg) (st : PaperState) (fe : FullEnv) :
    (analyze_full_paper cfg st fe).1.snippet = st.snippet :=
  afp_preserves cfg st fe PaperState.snippet (by intros; rfl) (by intros; rfl)

@[simp] theorem afp_categories (cfg : TaskCfg) (st : PaperState)
    (fe : FullEnv) :
    (analyze_full_paper cfg st fe).1.categories = st.categories :=
  afp_preserves cfg st fe PaperState.categories (by intros; rfl)
    (by intros; rfl)

@[simp] theorem afp_authors (cfg : TaskCfg) (st : PaperState) (fe : FullEnv) :
    (analyze_full_paper cfg st fe).1.authors = st.authors :=
  afp_preserves cfg st fe PaperState.authors (by intros; rfl) (by intros; rfl)

@[simp] theorem afp_arxiv_id (cfg : TaskCfg) (st : PaperState)
    (fe : FullEnv) :
    (analyze_full_paper cfg st fe).1.arxiv_id = st.arxiv_id :=
  afp_preserves cfg st fe PaperState.arxiv_id (by intros; rfl)
    (by intros; rfl)

@[simp] theorem afp_published_date (cfg : TaskCfg) (st : PaperState)
    (fe : FullEnv) :
    (analyze_full_paper cfg st fe).1.published_date = st.published_date :=
  afp_preserves cfg st fe PaperState.published_date (by intros; rfl)
    (by intros; rfl)

@[simp] theorem afp_pdf_link (cfg : TaskCfg) (st : PaperState)
    (fe : FullEnv) :
    (analyze_full_paper cfg st fe).1.pdf_link = st.pdf_link :=
  afp_preserves cfg st fe PaperState.pdf_link (by intros; rfl)
    (by intros; rfl)

@[simp] theorem afp_paddle_result (cfg : TaskCfg) (st : PaperState)
    (fe : FullEnv) :
    (analyze_full_paper cfg st fe).1.paddle_ocr_result =
      st.paddle_ocr_result :=
  afp_preserves cfg st fe PaperState.paddle_ocr_result (by intros; rfl)
    (by intros; rfl)

@[simp] theorem afp_paddle_images (cfg : TaskCfg) (st : PaperState)
    (fe : FullEnv) :
    (analyze_full_paper cfg st fe).1.paddle_ocr_images =
      st.paddle_ocr_images :=
  afp_preserves cfg st fe PaperState.paddle_ocr_images (by intros; rfl)
    (by intros; rfl)

@[simp] theorem afp_full_analyzed (cfg : TaskCfg) (st : PaperState)
    (fe : FullEnv) :
    (analyze_full_paper cfg st fe).1.full_paper_analyzed =
      st.full_paper_analyzed :=
  afp_preserves cfg st fe PaperState.full_paper_analyzed (by intros; rfl)
    (by intros; rfl)

@[simp] theorem afp_full_justification (cfg : TaskCfg) (st : PaperState)
    (fe : FullEnv) :
    (analyze_full_paper cfg st fe).1.full_paper_analysis_justification =
      st.full_paper_analysis_justification :=
  afp_preserves cfg st fe PaperState.full_paper_analysis_justification
    (by intros; rfl) (by intros; rfl)

@[simp] theorem afp_full_is_relevant (cfg : TaskCfg) (st : PaperState)
    (fe : FullEnv) :
    (analyze_full_paper cfg st fe).1.full_paper_is_relevant =
      st.full_paper_is_relevant :=
  afp_preserves cfg st fe PaperState.full_paper_is_relevant (by intros; rfl)
    (by intros; rfl)

@[simp] theorem afp_full_score (cfg : TaskCfg) (st : PaperState)
    (fe : FullEnv) :
    (analyze_full_paper cfg st fe).1.full_paper_relevance_score =
      st.full_paper_relevance_score :=
  afp_preserves cfg st fe PaperState.full_paper_relevance_score
    (by intros; rfl) (by intros; rfl)

@[simp] theorem afp_final_is_relevant (cfg : TaskCfg) (st : PaperState)
    (fe : FullEnv) :
    (analyze_full_paper cfg st fe).1.final_is_relevant =
      st.final_is_relevant :=
  afp_preserves cfg st fe PaperState.final_is_relevant (by intros; rfl)
    (by intros; rfl)

@[simp] theorem afp_final_score (cfg : TaskCfg) (st : PaperState)
    (fe : FullEnv) :
    (analyze_full_paper cfg st fe).1.final_relevance_score =
      st.final_relevance_score :=
  afp_preserves cfg st fe PaperState.final_relevance_score (by intros; rfl)
    (by intros; rfl)

@[simp] theorem afp_deep_success (cfg : TaskCfg) (st : PaperState)
    (fe : FullEnv) :
    (analyze_full_paper cfg st fe).1.deep_analysis_success =
      st.deep_analysis_success :=
  afp_preserves cfg st fe PaperState.deep_analysis_success (by intros; rfl)
    (by intros; rfl)

@[simp] theorem afp_deep_completed (cfg : TaskCfg) (st : PaperState)
    (fe : FullEnv) :
    (analyze_full_paper cfg st fe).1.deep_analysis_completed =
      st.deep_analysis_completed :=
  afp_preserves cfg st fe PaperState.deep_analysis_completed (by intros; rfl)
    (by intros; rfl)

@[simp] theorem afp_deep_result (cfg : TaskCfg) (st : PaperState)
    (fe : FullEnv) :
    (analyze_full_paper cfg st fe).1.deep_analysis_result =
      st.deep_analysis_result :=
  afp_preserves cfg st fe PaperState.deep_analysis_result (by intros; rfl)
    (by intros; rfl)

@[simp] theorem afp_saved (cfg : TaskCfg) (st : PaperState) (fe : FullEnv) :
    (analyze_full_paper cfg st fe).1.saved_to_database =
      st.saved_to_database :=
  afp_preserves cfg st fe PaperState.saved_to_database (by intros; rfl)
    (by intros; rfl)

@[simp] theorem afp_abstract_is_relevant (cfg : TaskCfg) (st : PaperState)
    (fe : FullEnv) :
    (analyze_full_paper cfg st fe).1.abstract_is_relevant =
      st.abstract_is_relevant :=
  afp_preserves cfg st fe PaperState.abstract_is_relevant (by intros; rfl)
    (by intros; rfl)

@[simp] theorem afp_abstract_score (cfg : TaskCfg) (st : PaperState)
    (fe : FullEnv) :
    (analyze_full_paper cfg st fe).1.abstract_relevance_score =
      st.abstract_relevance_score :=
  afp_preserves cfg st fe PaperState.abstract_relevance_score
    (by intros; rfl) (by intros; rfl)

@[simp] theorem afp_abstract_justification (cfg : TaskCfg)
    (st : PaperState) (fe : FullEnv) :
    (analyze_full_paper cfg st fe).1.abstract_analysis_justification =
      st.abstract_analysis_justification :=
  afp_preserves cfg st fe PaperState.abstract_analysis_justification
    (by intros; rfl) (by intros; rfl)

@[simp] theorem afp_no_saveAttempt (cfg : TaskCfg) (st : PaperState)
    (fe : FullEnv) :
    Event.saveAttempt ∉ (analyze_full_paper cfg st fe).2.2 := by
  intro h
  rcases analyze_full_paper_events cfg st fe _ h with h1 | h1 | h1 <;>
    exact absurd h1 (by simp)

@[simp] theorem afp_no_dbCreate (cfg : TaskCfg) (st : PaperState)
    (fe : FullEnv) (m : PaperModel) :
    Event.dbCreate m ∉ (analyze_full_paper cfg st fe).2.2 := by
  intro h
  rcases analyze_full_paper_events cfg st fe _ h with h1 | h1 | h1 <;>
    exact absurd h1 (by simp)

@[simp] theorem afp_no_deepAnalyze (cfg : TaskCfg) (st : PaperState)
    (fe : FullEnv) :
    Event.deepAnalyze ∉ (analyze_full_paper cfg st fe).2.2 := by
  intro h
  rcases analyze_full_paper_events cfg st fe _ h with h1 | h1 | h1 <;>
    exact absurd h1 (by simp)

end HomeSystem

namespace HomeSystem

set_option maxHeartbeats 3200000 in
/-- C4: after one iteration of `process_papers` finishes with a paper, the
large optional buffers — the PDF bytes, the OCR text and the OCR image
map (together with the structured-OCR markdown) — are all absent, while
the bibliographic fields remain and the scoring fields remain with the
values the stages computed: the abstract slots hold the abstract stage's
triple, a full-analysed paper keeps its full-paper triple populated with
the final fields mirroring it, an abstract-only paper keeps the abstract
decision as its final fields, and a deduped paper keeps the stored row's
status and score. -/
theorem pipeline_clears_large_buffers (cfg : TaskCfg) (env : PaperEnv) :
    (procState cfg env).pdf = none ∧
    (procState cfg env).ocr_result = none ∧
    (procState cfg env).paddle_ocr_result = none ∧
    (procState cfg env).paddle_ocr_images = [] ∧
    (procState cfg env).title = env.title ∧
    (procState cfg env).snippet = env.snippet ∧
    (procState cfg env).categories = env.categories ∧
    (procState cfg env).authors = env.authors ∧
    (procState cfg env).arxiv_id = env.arxiv_id ∧
    (procState cfg env).published_date = env.published_date ∧
    (env.existing = none →
      (procState cfg env).abstract_is_relevant =
        (analyze_paper_relevance env.abstractOut).is_relevant ∧
      (procState cfg env).abstract_relevance_score =
        (analyze_paper_relevance env.abstractOut).relevance_score ∧
      (procState cfg env).abstract_analysis_justification =
        some (analyze_paper_relevance env.abstractOut).justification) ∧
    ((procState cfg env).full_paper_analyzed = true →
      (procState cfg env).full_paper_is_relevant =
        some (procState cfg env).final_is_relevant ∧
      (procState cfg env).full_paper_relevance_score =
        some (procState cfg env).final_relevance_score ∧
      (procState cfg env).full_paper_analysis_justification ≠ none) ∧
    (env.existing = none → (procState cfg env).full_paper_analyzed = false →
      (procState cfg env).final_is_relevant =
        (analyze_paper_relevance env.abstractOut).is_relevant ∧
      (procState cfg env).final_relevance_score =
        (analyze_paper_relevance env.abstractOut).relevance_score ∧
      (procState cfg env).full_paper_relevance_score = none ∧
      (procState cfg env).full_paper_analysis_justification = none) ∧
    (∀ ex, env.existing = some ex →
      (procState cfg env).final_is_relevant =
        (ex.processing_status == "completed") ∧
      (procState cfg env).final_relevance_score =
        ex.metadata_final_relevance_score.getD 0) := by
  unfold procState process_one_paper
  cases hex : env.existing <;> dsimp only <;> repeat' split
  all_goals simp_all [initState]

end HomeSystem

namespace HomeSystem

/-- C1: within one `process_papers` iteration, `save_paper_to_database` is
invoked only when the paper's `final_is_relevant` is true and its
`final_relevance_score` is at least the configured `relevance_threshold`;
consequently every row actually created carries that final score (at least
the threshold) in its metadata. -/
theorem persist_only_when_relevant (cfg : TaskCfg) (env : PaperEnv) :
    (Event.saveAttempt ∈ procEvents cfg env →
      (procState cfg env).final_is_relevant = true ∧
      cfg.relevance_threshold ≤ (procState cfg env).final_relevance_score) ∧
    (∀ m, Event.dbCreate m ∈ procEvents cfg env →
      (procState cfg env).final_is_relevant = true ∧
      cfg.relevance_threshold ≤ (procState cfg env).final_relevance_score ∧
      m.metadata_final_relevance_score =
        (procState cfg env).final_relevance_score ∧
      m.processing_status = "completed") := by
  unfold procState procEvents process_one_paper
  cases hex : env.existing <;> dsimp only <;> repeat' split
  all_goals simp_all [initState, save_paper_to_database]
  all_goals (repeat' split)
  all_goals simp_all

/-- C10: `save_paper_to_database` returns `False` (and creates no row) for
every paper whose `full_paper_analysis_justification` is `None` or a
blank string; in particular a paper that never completed full-paper
analysis — which is initialised with a `None` justification — is never
persisted, whatever its final score. -/
theorem save_requires_full_justification :
    (∀ (cfg : TaskCfg) (st : PaperState) (ok : Bool),
      (st.full_paper_analysis_justification = none ∨
        ∃ s, st.full_paper_analysis_justification = some s ∧
          strTrim s = "") →
      save_paper_to_database cfg st ok = (false, [])) ∧
    (∀ (cfg : TaskCfg) (env : PaperEnv), env.existing = none →
      (procState cfg env).full_paper_analyzed = false →
      (procState cfg env).saved_to_database = false ∧
      ∀ m, Event.dbCreate m ∉ procEvents cfg env) := by
  constructor
  · intro cfg st ok h
    unfold save_paper_to_database
    rcases h with h | ⟨s, h, hs⟩ <;> rw [h] <;> simp [hs]
  · intro cfg env hex
    unfold procState procEvents process_one_paper
    rw [hex]
    dsimp only
    repeat' split
    all_goals simp_all [initState, save_paper_to_database]

end HomeSystem

namespace HomeSystem

/-! ### Helper lemmas about the config dictionary operations -/

theorem getVal_setKey_self (c : ConfigDict) (k : String) (v : JValue) :
    getVal (setKey c k v) k = some v := by
  induction c with
  | nil => simp [setKey, getVal]
  | cons p rest ih =>
    by_cases h : p.1 == k
    · simp [setKey, h, getVal]
    · simp [setKey, h, getVal, ih]

theorem getVal_setKey_ne (c : ConfigDict) (k k' : String) (v : JValue)
    (h : k' ≠ k) : getVal (setKey c k v) k' = getVal c k' := by
  induction c with
  | nil => simp [setKey, getVal, h, Ne.symm h]
  | cons p rest ih =>
    by_cases hp : p.1 == k
    · have hp2 : p.1 = k := by simpa using hp
      simp [setKey, hp, getVal, hp2, h, Ne.symm h]
    · by_cases hq : p.1 == k'
      · simp [setKey, hp, getVal, hq]
      · simp [setKey, hp, getVal, hq, ih]

theorem setKey_id (c : ConfigDict) (k : String) (v : JValue)
    (h : getVal c k = some v) : setKey c k v = c := by
  induction c with
  | nil => simp [getVal] at h
  | cons p rest ih =>
    by_cases hp : p.1 == k
    · have hp2 : p.1 = k := by simpa using hp
      simp [getVal, hp2] at h
      simp [setKey, hp, hp2]
      exact Prod.ext hp2.symm h.symm
    · simp [getVal, hp] at h
      simp [setKey, hp, ih h]

theorem setKey_setKey (c : ConfigDict) (k : String) (v w : JValue) :
    setKey (setKey c k v) k w = setKey c k w := by
  induction c with
  | nil => simp [setKey]
  | cons p rest ih =>
    by_cases hp : p.1 == k
    · simp [setKey, hp]
    · simp [setKey, hp, ih]

theorem applyDefault_getVal_ne (c : ConfigDict) (kd : String × JValue)
    (key : String) (h : key ≠ kd.1) :
    getVal (applyDefault c kd) key = getVal c key := by
  unfold applyDefault
  repeat' split
  all_goals (try rfl)
  all_goals exact getVal_setKey_ne c kd.1 key kd.2 h

theorem applyDefault_getVal_none (c : ConfigDict) (k : String) (d : JValue)
    (h : getVal c k = none) : getVal (applyDefault c (k, d)) k = some d := by
  unfold applyDefault
  simp only [h]
  exact getVal_setKey_self c k d

/-- Folding default application over entries whose keys avoid `key` leaves
`getVal _ key` unchanged. -/
theorem foldl_applyDefault_getVal_ne (l : List (String × JValue))
    (c : ConfigDict) (key : String) (h : ∀ kd ∈ l, key ≠ kd.1) :
    getVal (l.foldl applyDefault c) key = getVal c key := by
  induction l generalizing c with
  | nil => rfl
  | cons kd rest ih =>
    simp only [List.foldl_cons]
    rw [ih _ (fun x hx => h x (List.mem_cons_of_mem kd hx)),
      applyDefault_getVal_ne c kd key (h kd (List.mem_cons_self kd rest))]

end HomeSystem

namespace HomeSystem

/-- C5 counterexample: upgrading a config with the unknown version tag
`0.9.0` does NOT apply the 1.0.0 defaults — `search_query` (default
`"machine learning"` in 1.0.0) stays missing — while the current version is
stamped and the 1.2.0 defaults are applied. -/
theorem unknown_version_skips_old_defaults_cex :
    getVal (ensure_config_compatibility [("_version", JValue.str "0.9.0")])
        "search_query" = none ∧
    getVal (ensure_config_compatibility [("_version", JValue.str "0.9.0")])
        "search_mode" = none ∧
    getVal (ensure_config_compatibility [("_version", JValue.str "0.9.0")])
        "_version" = some (JValue.str "1.2.0") ∧
    getVal (ensure_config_compatibility [("_version", JValue.str "0.9.0")])
        "abstract_analysis_model" = some JValue.null := by
  exact ⟨rfl, rfl, rfl, rfl⟩

/-- C5 (amended): a stored config whose version tag is not a released
version is upgraded by applying only the defaults newly introduced in the
current version 1.2.0 (for missing fields) and stamping the current
version; the defaults of 1.0.0 and 1.1.0 (for example `search_query` and
`search_mode`) are not applied. -/
theorem unknown_version_upgrade (cfg : ConfigDict)
    (h : versionUnknown cfg = true) :
    getVal (ensure_config_compatibility cfg) "_version" =
      some (JValue.str CURRENT_VERSION) ∧
    (getVal cfg "search_query" = none →
      getVal (ensure_config_compatibility cfg) "search_query" = none) ∧
    (getVal cfg "search_mode" = none →
      getVal (ensure_config_compatibility cfg) "search_mode" = none) ∧
    (getVal cfg "abstract_analysis_model" = none →
      getVal (ensure_config_compatibility cfg) "abstract_analysis_model" =
        some JValue.null) ∧
    (getVal cfg "paper_analysis_model" = none →
      getVal (ensure_config_compatibility cfg) "paper_analysis_model" =
        some JValue.null) := by
  have hpath : (match (getVal cfg "_version").getD (JValue.str "1.0.0") with
      | JValue.str v => get_upgrade_path v CURRENT_VERSION
      | _ => [CURRENT_VERSION]) = [CURRENT_VERSION] := by
    unfold versionUnknown at h
    rcases hg : getVal cfg "_version" with _ | v
    · rw [hg] at h; simp at h
    · rw [hg] at h
      rcases v with _ | b | q | s | l | l | m
      case str =>
        simp [knownVersions] at h
        obtain ⟨h1, h2, h3⟩ := h
        simp [get_upgrade_path, knownVersions, CURRENT_VERSION,
          List.findIdx?, Ne.symm h1, Ne.symm h2, Ne.symm h3]
      all_goals rfl
  unfold ensure_config_compatibility
  dsimp only
  rw [hpath]
  simp only [List.foldl_cons, List.foldl_nil]
  have hvd : VERSION_DEFAULTS "1.2.0" =
      [("abstract_analysis_model", JValue.null),
       ("full_paper_analysis_model", JValue.null),
       ("translation_model", JValue.null),
       ("paper_analysis_model", JValue.null)] := by rfl
  have hUeq : applyVersionDefaults cfg CURRENT_VERSION =
      applyDefault (applyDefault (applyDefault (applyDefault cfg
        ("abstract_analysis_model", JValue.null))
        ("full_paper_analysis_model", JValue.null))
        ("translation_model", JValue.null))
        ("paper_analysis_model", JValue.null) := by
    unfold applyVersionDefaults CURRENT_VERSION
    rw [hvd]
    rfl
  rw [hUeq]
  generalize hd1 :
    applyDefault cfg ("abstract_analysis_model", JValue.null) = c1
  generalize hd2 :
    applyDefault c1 ("full_paper_analysis_model", JValue.null) = c2
  generalize hd3 : applyDefault c2 ("translation_model", JValue.null) = c3
  generalize hd4 : applyDefault c3 ("paper_analysis_model", JValue.null) = c4
  have keyU : ∀ key, key ≠ "abstract_analysis_model" →
      key ≠ "full_paper_analysis_model" → key ≠ "translation_model" →
      key ≠ "paper_analysis_model" → getVal c4 key = getVal cfg key := by
    intro key h1 h2 h3 h4
    rw [← hd4, applyDefault_getVal_ne _ _ _ h4, ← hd3,
      applyDefault_getVal_ne _ _ _ h3, ← hd2,
      applyDefault_getVal_ne _ _ _ h2, ← hd1,
      applyDefault_getVal_ne _ _ _ h1]
  have hSne : ∀ key, key ≠ "_version" →
      getVal (setKey c4 "_version" (JValue.str CURRENT_VERSION)) key =
        getVal c4 key := fun key hk =>
    getVal_setKey_ne c4 "_version" key (JValue.str CURRENT_VERSION) hk
  have hverS : getVal (setKey c4 "_version" (JValue.str CURRENT_VERSION))
      "_version" = some (JValue.str CURRENT_VERSION) :=
    getVal_setKey_self c4 "_version" (JValue.str CURRENT_VERSION)
  have hq1 : getVal cfg "search_query" = none →
      getVal (setKey c4 "_version" (JValue.str CURRENT_VERSION))
        "search_query" = none := by
    intro hq
    rw [hSne _ (by decide), keyU _ (by decide) (by decide) (by decide)
      (by decide), hq]
  have hq3 : getVal cfg "abstract_analysis_model" = none →
      getVal (setKey c4 "_version" (JValue.str CURRENT_VERSION))
        "abstract_analysis_model" = some JValue.null := by
    intro hq
    rw [hSne _ (by decide), ← hd4, applyDefault_getVal_ne _ _ _ (by decide),
      ← hd3, applyDefault_getVal_ne _ _ _ (by decide), ← hd2,
      applyDefault_getVal_ne _ _ _ (by decide), ← hd1,
      applyDefault_getVal_none _ _ _ hq]
  have hq4 : getVal cfg "paper_analysis_model" = none →
      getVal (setKey c4 "_version" (JValue.str CURRENT_VERSION))
        "paper_analysis_model" = some JValue.null := by
    intro hq
    have hc3 : getVal c3 "paper_analysis_model" = none := by
      rw [← hd3, applyDefault_getVal_ne _ _ _ (by decide), ← hd2,
        applyDefault_getVal_ne _ _ _ (by decide), ← hd1,
        applyDefault_getVal_ne _ _ _ (by decide), hq]
    rw [hSne _ (by decide), ← hd4, applyDefault_getVal_none _ _ _ hc3]
  have hsm_eq : getVal (setKey c4 "_version" (JValue.str CURRENT_VERSION))
      "search_mode" = getVal cfg "search_mode" := by
    rw [hSne _ (by decide), keyU _ (by decide) (by decide) (by decide)
      (by decide)]
  have hL : ∀ (w : JValue) key, key ≠ "search_mode" →
      getVal (setKey (setKey c4 "_version" (JValue.str CURRENT_VERSION))
        "search_mode" w) key =
      getVal (setKey c4 "_version" (JValue.str CURRENT_VERSION)) key :=
    fun w key h1 =>
      getVal_setKey_ne _ "search_mode" key w h1
  rw [hsm_eq]
  rcases hv : getVal cfg "search_mode" with _ | v
  · simp only [hv]
    refine ⟨hverS, hq1, ?_, hq3, hq4⟩
    intro _
    rw [hsm_eq, hv]
  · rcases v with _ | b | q | s | l | l | m
    all_goals simp only [hv]
    case str =>
      refine ⟨?_, ?_, ?_, ?_, ?_⟩
      · rw [hL _ _ (by decide)]; exact hverS
      · intro hq; rw [hL _ _ (by decide)]; exact hq1 hq
      · intro hq; exact Option.noConfusion hq
      · intro hq; rw [hL _ _ (by decide)]; exact hq3 hq
      · intro hq; rw [hL _ _ (by decide)]; exact hq4 hq
    all_goals exact ⟨hverS, hq1, fun hq => Option.noConfusion hq, hq3, hq4⟩

/-- C5 witness: applying the amended theorem to the concrete unknown-version
config `[("_version", "0.9.0")]`. -/
theorem unknown_version_upgrade_witness :
    versionUnknown [("_version", JValue.str "0.9.0")] = true ∧
    getVal (ensure_config_compatibility [("_version", JValue.str "0.9.0")])
      "_version" = some (JValue.str CURRENT_VERSION) ∧
    getVal (ensure_config_compatibility [("_version", JValue.str "0.9.0")])
      "search_query" = none :=
  ⟨rfl, (unknown_version_upgrade [("_version", JValue.str "0.9.0")] rfl).1,
    (unknown_version_upgrade [("_version", JValue.str "0.9.0")] rfl).2.1 rfl⟩

end HomeSystem

namespace HomeSystem

/-! ### Concrete sample inputs used by witnesses and counterexamples -/

/-- A sample configuration (integer-valued thresholds keep every concrete
evaluation kernel-computable). -/
def cfgA : TaskCfg :=
  { relevance_threshold := 1
    enable_deep_analysis := true
    deep_analysis_threshold := 2
    ocr_char_limit_for_analysis := 10000
    task_name := "paper_gather"
    task_id := none }

/-- An OCR text longer than the 500-character minimum. -/
def ocrLong : String := String.mk (List.replicate 600 'a')

/-- A fresh paper that passes every stage. -/
def envHappy : PaperEnv :=
  { title := "T"
    link := "http://arxiv.org/abs/2401.00001"
    snippet := "S"
    categories := "cs.AI"
    authors := "A"
    arxiv_id := "2401.00001"
    published_date := "2024年01月"
    existing := none
    abstractOut := some ⟨true, 2, "ok"⟩
    full := ⟨some [1, 2], some ocrLong, fun _ => some ⟨true, 3, "good"⟩⟩
    deepOk := true
    deepReport := "R"
    createOk := true }

/-- C2 (amended): a paper whose id already exists in the store performs no
fetch, no scoring and no store write — the only event is the existence
check — but it is always marked `saved_to_database` (so it counts into
`saved_papers`), and it carries the stored row's status and score as its
final relevance (so it counts into `relevant_papers` exactly when the
stored row is `completed` with a stored score at least the threshold). -/
theorem dedupe_skips_but_counts (cfg : TaskCfg) (env : PaperEnv)
    (ex : ExistingPaper) (hex : env.existing = some ex) :
    procEvents cfg env = [Event.dbCheck] ∧
    (procState cfg env).saved_to_database = true ∧
    (procState cfg env).final_is_relevant =
      (ex.processing_status == "completed") ∧
    (procState cfg env).final_relevance_score =
      ex.metadata_final_relevance_score.getD 0 := by
  unfold procEvents procState process_one_paper
  rw [hex]
  exact ⟨rfl, rfl, rfl, rfl⟩

/-- C2 witness: the amended theorem applied to a stored duplicate whose row
is not `completed`. -/
theorem dedupe_skips_but_counts_witness :
    procEvents cfgA { envHappy with existing := some ⟨"failed", none⟩ } =
      [Event.dbCheck] ∧
    (procState cfgA { envHappy with existing := some ⟨"failed", none⟩ }
      ).saved_to_database = true :=
  ⟨(dedupe_skips_but_counts cfgA _ ⟨"failed", none⟩ rfl).1,
    (dedupe_skips_but_counts cfgA _ ⟨"failed", none⟩ rfl).2.1⟩

/-- C2 counterexample: one already-stored paper (stored as `completed` with
score 0.9) yields the run summary `{total := 1, relevant := 1, saved := 1}`
— the claim's expected `relevant = 0` and `saved = 0` are both wrong. -/
theorem dedupe_counts_in_summary_cex :
    runTask cfgA [{ envHappy with
        existing := some ⟨"completed", some 2⟩ }] =
      { total_papers := 1, relevant_papers := 1, saved_papers := 1 } ∧
    (runTask cfgA [{ envHappy with
        existing := some ⟨"completed", some 2⟩ }]).relevant_papers ≠ 0 ∧
    (runTask cfgA [{ envHappy with
        existing := some ⟨"completed", some 2⟩ }]).saved_papers ≠ 0 := by
  refine ⟨?_, by decide, by decide⟩
  decide

end HomeSystem

namespace HomeSystem

set_option maxRecDepth 40000 in
/-- C1 witness: on a concrete happy-path paper the save is attempted and the
guard holds. -/
theorem persist_only_when_relevant_witness :
    Event.saveAttempt ∈ procEvents cfgA envHappy ∧
    (procState cfgA envHappy).final_is_relevant = true ∧
    cfgA.relevance_threshold ≤ (procState cfgA envHappy).final_relevance_score := by
  have h : Event.saveAttempt ∈ procEvents cfgA envHappy := by decide
  exact ⟨h, (persist_only_when_relevant cfgA envHappy).1 h⟩

set_option maxRecDepth 40000 in
/-- C4 witness: on the concrete happy-path paper the frame theorem's inner
implications fire — the paper is fresh and was full-analysed — and yield
the cleared PDF buffer together with the preserved abstract score and the
populated full-paper score mirroring the final score. -/
theorem pipeline_clears_large_buffers_witness :
    envHappy.existing = none ∧
    (procState cfgA envHappy).full_paper_analyzed = true ∧
    (procState cfgA envHappy).pdf = none ∧
    (procState cfgA envHappy).abstract_relevance_score =
      (analyze_paper_relevance envHappy.abstractOut).relevance_score ∧
    (procState cfgA envHappy).full_paper_relevance_score =
      some (procState cfgA envHappy).final_relevance_score := by
  obtain ⟨h1, _, _, _, _, _, _, _, _, _, habs, hfull, _, _⟩ :=
    pipeline_clears_large_buffers cfgA envHappy
  have hexist : envHappy.existing = none := rfl
  have hfa : (procState cfgA envHappy).full_paper_analyzed = true := by decide
  exact ⟨hexist, hfa, h1, (habs hexist).2.1, (hfull hfa).2.1⟩

/-- C10 witness: a paper whose full-paper analysis failed (PDF fetch raised)
still passes the abstract threshold, yet is not saved. -/
theorem save_requires_full_justification_witness :
    save_paper_to_database cfgA
      (initState { envHappy with full := ⟨none, none, fun _ => none⟩ }) true =
      (false, []) ∧
    (procState cfgA { envHappy with full := ⟨none, none, fun _ => none⟩ }
      ).saved_to_database = false := by
  refine ⟨save_requires_full_justification.1 cfgA _ true (Or.inl rfl), ?_⟩
  exact (save_requires_full_justification.2 cfgA
    { envHappy with full := ⟨none, none, fun _ => none⟩ } rfl (by decide)).1

/-- Helper for C3: a fresh (non-deduped) paper marked `saved_to_database`
necessarily passed the final relevance guard. -/
theorem fresh_saved_passes_guard (cfg : TaskCfg) (env : PaperEnv)
    (hex : env.existing = none)
    (h : (procState cfg env).saved_to_database = true) :
    ((procState cfg env).final_is_relevant &&
      decide (cfg.relevance_threshold ≤
        (procState cfg env).final_relevance_score)) = true := by
  revert h
  unfold procState process_one_paper
  rw [hex]
  dsimp only
  repeat' split
  all_goals simp_all [initState, save_paper_to_database]
  all_goals (repeat' split)
  all_goals simp_all
  all_goals simp_all [apply_ite]

/-- C3 (amended): in every completed run `relevant_papers ≤ total_papers`
and `saved_papers ≤ total_papers`; when no input paper was already stored,
additionally `saved_papers ≤ relevant_papers`. (The unconditional
`saved ≤ relevant` of the claim fails on deduped papers.) -/
theorem run_counter_bounds (cfg : TaskCfg) (envs : List PaperEnv) :
    (runTask cfg envs).relevant_papers ≤ (runTask cfg envs).total_papers ∧
    (runTask cfg envs).saved_papers ≤ (runTask cfg envs).total_papers ∧
    ((∀ e ∈ envs, e.existing = none) →
      (runTask cfg envs).saved_papers ≤ (runTask cfg envs).relevant_papers) := by
  refine ⟨List.countP_le_length _, List.countP_le_length _, ?_⟩
  intro hall
  unfold runTask
  dsimp only
  apply List.countP_mono_left
  intro p hp hsaved
  rw [List.mem_map] at hp
  obtain ⟨pair, hpair, rfl⟩ := hp
  unfold process_papers at hpair
  rw [List.mem_map] at hpair
  obtain ⟨env, henv, rfl⟩ := hpair
  exact fresh_saved_passes_guard cfg env (hall env henv) hsaved

set_option maxRecDepth 40000 in
/-- C3 witness: the amended bound applied to a concrete fresh-papers run. -/
theorem run_counter_bounds_witness :
    (runTask cfgA [envHappy]).saved_papers ≤
      (runTask cfgA [envHappy]).relevant_papers :=
  (run_counter_bounds cfgA [envHappy]).2.2 (by decide)

/-- C3 counterexample: a single already-stored paper whose row is not
`completed` is counted as saved but not as relevant, so
`saved_papers ≤ relevant_papers` fails. -/
theorem saved_exceeds_relevant_cex :
    (runTask cfgA [{ envHappy with existing := some ⟨"failed", none⟩ }]
      ).saved_papers = 1 ∧
    (runTask cfgA [{ envHappy with existing := some ⟨"failed", none⟩ }]
      ).relevant_papers = 0 ∧
    ¬ ((runTask cfgA [{ envHappy with existing := some ⟨"failed", none⟩ }]
      ).saved_papers ≤
      (runTask cfgA [{ envHappy with existing := some ⟨"failed", none⟩ }]
      ).relevant_papers) := by
  refine ⟨by decide, by decide, by decide⟩

end HomeSystem

namespace HomeSystem

/-- C8 (amended): deep analysis runs only when `enable_deep_analysis` is on
and the full-paper score reaches `deep_analysis_threshold`; the
save attempt is decided exactly by the final relevance guard — which never
consults the deep-analysis outcome — and a row created after a failed deep
analysis carries `deep_analysis_status = "failed"` together with the
bibliographic fields. -/
theorem deep_analysis_gating (cfg : TaskCfg) (env : PaperEnv) :
    (Event.deepAnalyze ∈ procEvents cfg env →
      cfg.enable_deep_analysis = true ∧
      cfg.deep_analysis_threshold ≤ (procState cfg env).final_relevance_score ∧
      (procState cfg env).final_is_relevant = true ∧
      (procState cfg env).full_paper_analyzed = true) ∧
    (Event.saveAttempt ∈ procEvents cfg env ↔
      env.existing = none ∧
      (procState cfg env).final_is_relevant = true ∧
      cfg.relevance_threshold ≤ (procState cfg env).final_relevance_score) ∧
    (∀ m, Event.dbCreate m ∈ procEvents cfg env →
      Event.deepAnalyze ∈ procEvents cfg env → env.deepOk = false →
      m.deep_analysis_status = some "failed" ∧
      m.processing_status = "completed" ∧
      m.title = env.title ∧ m.arxiv_id = env.arxiv_id ∧
      m.authors = env.authors ∧ m.abstract = env.snippet) := by
  unfold procState procEvents process_one_paper
  cases hex : env.existing <;> dsimp only <;> repeat' split
  all_goals simp_all [initState, save_paper_to_database]
  all_goals (repeat' split)
  all_goals simp_all

end HomeSystem

namespace HomeSystem

/-- The row created for `envHappy` when its deep analysis fails. -/
def mDeepFail : PaperModel :=
  { arxiv_id := "2401.00001"
    title := "T"
    authors := "A"
    abstract := "S"
    categories := "cs.AI"
    published_date := "2024年01月"
    pdf_url := "http://arxiv.org/pdf/2401.00001"
    processing_status := "completed"
    task_name := "paper_gather"
    task_id := none
    metadata_final_relevance_score := 3
    full_paper_relevance_score := some 3
    full_paper_relevance_justification := "good"
    deep_analysis_result := none
    deep_analysis_status := some "failed" }

set_option maxRecDepth 40000 in
/-- C8 witness: on the concrete paper whose deep analysis fails, the deep
stage ran under its gate and the stored row has status `failed` with the
bibliographic fields intact. -/
theorem deep_analysis_gating_witness :
    Event.deepAnalyze ∈ procEvents cfgA { envHappy with deepOk := false } ∧
    cfgA.enable_deep_analysis = true ∧
    Event.saveAttempt ∈ procEvents cfgA { envHappy with deepOk := false } ∧
    mDeepFail.deep_analysis_status = some "failed" ∧
    mDeepFail.title = ({ envHappy with deepOk := false } : PaperEnv).title := by
  have hd : Event.deepAnalyze ∈
      procEvents cfgA { envHappy with deepOk := false } := by decide
  have hc : Event.dbCreate mDeepFail ∈
      procEvents cfgA { envHappy with deepOk := false } := by decide
  have hs : Event.saveAttempt ∈
      procEvents cfgA { envHappy with deepOk := false } := by decide
  refine ⟨hd, ((deep_analysis_gating cfgA _).1 hd).1, hs, ?_, ?_⟩
  · exact ((deep_analysis_gating cfgA _).2.2 mDeepFail hc hd rfl).1
  · exact ((deep_analysis_gating cfgA _).2.2 mDeepFail hc hd rfl).2.2.1

set_option maxRecDepth 40000 in
/-- C8 counterexample: with `deep_analysis_threshold` (1) below
`relevance_threshold` (2), a paper can fail deep analysis and not be
persisted at all — no save is even attempted — refuting "when deep analysis
fails, the paper is still persisted". -/
theorem deep_fail_not_persisted_cex :
    Event.deepAnalyze ∈ procEvents
      { relevance_threshold := 2
        enable_deep_analysis := true
        deep_analysis_threshold := 1
        ocr_char_limit_for_analysis := 10000
        task_name := "paper_gather"
        task_id := none }
      { envHappy with
          full := ⟨some [1], some ocrLong, fun _ => some ⟨true, 1, "mid"⟩⟩
          deepOk := false } ∧
    ({ envHappy with
        full := ⟨some [1], some ocrLong, fun _ => some ⟨true, 1, "mid"⟩⟩
        deepOk := false } : PaperEnv).deepOk = false ∧
    (procState
      { relevance_threshold := 2
        enable_deep_analysis := true
        deep_analysis_threshold := 1
        ocr_char_limit_for_analysis := 10000
        task_name := "paper_gather"
        task_id := none }
      { envHappy with
          full := ⟨some [1], some ocrLong, fun _ => some ⟨true, 1, "mid"⟩⟩
          deepOk := false }).saved_to_database = false ∧
    Event.saveAttempt ∉ procEvents
      { relevance_threshold := 2
        enable_deep_analysis := true
        deep_analysis_threshold := 1
        ocr_char_limit_for_analysis := 10000
        task_name := "paper_gather"
        task_id := none }
      { envHappy with
          full := ⟨some [1], some ocrLong, fun _ => some ⟨true, 1, "mid"⟩⟩
          deepOk := false } := by
  refine ⟨by decide, rfl, by decide, by decide⟩

end HomeSystem

namespace HomeSystem

/-- Under a network that always fails transport, `directArxivSearch` keeps
retrying through the `arxivSearch` fallback until the recursion limit:
it issues exactly `fuel` HTTP requests and ends in the (caught)
exception. -/
theorem directArxivSearch_allFail (net : Nat → NetResult)
    (hnet : ∀ j, net j = NetResult.transportError) (fuel : Nat) :
    ∀ (k : Nat) (q : String) (n : Nat) (sb ord : String),
      (directArxivSearch net fuel k q n sb ord).1 = none ∧
      (directArxivSearch net fuel k q n sb ord).2.length = fuel := by
  induction fuel with
  | zero => intro k q n sb ord; exact ⟨rfl, rfl⟩
  | succ fuel ih =>
    intro k q n sb ord
    unfold directArxivSearch
    rw [hnet k]
    dsimp only
    refine ⟨(ih (k + 1) q n sb _).1, ?_⟩
    simp [(ih (k + 1) q n sb _).2]

/-- Every HTTP request `directArxivSearch` ever issues is the single bounded
call of the source: `start = 0`, `max_results` capped at 2000, and a 30 s
timeout. -/
theorem directArxivSearch_requests (net : Nat → NetResult) (fuel : Nat) :
    ∀ (k : Nat) (q : String) (n : Nat) (sb ord : String),
      ∀ r ∈ (directArxivSearch net fuel k q n sb ord).2,
        r.timeout = 30 ∧ r.start = 0 ∧ r.max_results = min n 2000 ∧
        r.search_query = q := by
  induction fuel with
  | zero =>
    intro k q n sb ord r hr
    simp [directArxivSearch] at hr
  | succ fuel ih =>
    intro k q n sb ord r hr
    unfold directArxivSearch at hr
    dsimp only at hr
    rcases hnet : net k with _ | entries
    · rw [hnet] at hr
      dsimp only at hr
      rcases List.mem_cons.mp hr with h | h
      · subst h; exact ⟨rfl, rfl, rfl, rfl⟩
      · exact ih (k + 1) q n sb _ r h
    · rcases entries with _ | ⟨e, es⟩ <;> rw [hnet] at hr <;>
        simp only [List.mem_singleton] at hr <;> subst hr <;>
        exact ⟨rfl, rfl, rfl, rfl⟩

end HomeSystem

namespace HomeSystem

/-- C6 (amended): every HTTP request the index search issues is bounded
(default timeout 30 s, `start = 0`, `max_results` capped at 2000); a
zero-hit feed yields the empty result from a single request without
raising; but on transport error `directArxivSearch` does NOT fail after a
single call — it falls back to `arxivSearch`, retrying until the recursion
limit — and `PaperGatherTask.search_papers` turns the eventual failure into
an empty result so the run continues. -/
theorem index_search_contract (net : Nat → NetResult)
    (fuel k current_year : Nat) (q : String) (n : Nat) (sb ord : String) :
    (∀ r ∈ (directArxivSearch net fuel k q n sb ord).2,
      r.timeout = 30 ∧ r.start = 0 ∧ r.max_results = min n 2000) ∧
    (net k = NetResult.feed [] →
      (directArxivSearch net (fuel + 1) k q n sb ord).1 = some [] ∧
      (directArxivSearch net (fuel + 1) k q n sb ord).2.length = 1) ∧
    ((∀ j, net j = NetResult.transportError) →
      ∀ (mode : SearchMode) (sy ey ay : Option Nat),
        (search_papers net fuel k current_year q mode n sy ey ay).1 = []) := by
  refine ⟨?_, ?_, ?_⟩
  · intro r hr
    exact ⟨(directArxivSearch_requests net fuel k q n sb ord r hr).1,
      (directArxivSearch_requests net fuel k q n sb ord r hr).2.1,
      (directArxivSearch_requests net fuel k q n sb ord r hr).2.2.1⟩
  · intro hempty
    unfold directArxivSearch
    rw [hempty]
    exact ⟨rfl, rfl⟩
  · intro hnet mode sy ey ay
    have hpair : (searchPapersByMode net fuel k current_year q mode n
        sy ey ay).1 = none := by
      cases mode
      case LATEST =>
        unfold searchPapersByMode getLatestPapers arxivSearch
        exact (directArxivSearch_allFail net hnet fuel k q n _ _).1
      case MOST_RELEVANT =>
        unfold searchPapersByMode getMostRelevantPapers
        exact (directArxivSearch_allFail net hnet fuel k q n _ _).1
      case RECENTLY_UPDATED =>
        unfold searchPapersByMode getRecentlyUpdated arxivSearch
        exact (directArxivSearch_allFail net hnet fuel k q n _ _).1
      case DATE_RANGE =>
        rcases sy with _ | sy <;> rcases ey with _ | ey
        case none.none => rfl
        case none.some => rfl
        case some.none => rfl
        case some.some =>
          unfold searchPapersByMode searchPapersByDateRange
          exact (directArxivSearch_allFail net hnet fuel k _ n _ _).1
      case AFTER_YEAR =>
        rcases ay with _ | ay
        case none => rfl
        case some =>
          unfold searchPapersByMode searchPapersAfterYear
          exact (directArxivSearch_allFail net hnet fuel k _ n _ _).1
    unfold search_papers
    split
    case h_1 r reqs heq =>
      rw [heq] at hpair
      exact absurd hpair (by simp)
    case h_2 => rfl

/-- C6 witness: the contract applied at a zero-hit network and at an
always-failing network. -/
theorem index_search_contract_witness :
    (directArxivSearch (fun _ => NetResult.feed []) 1 0 "q" 5
      "submittedDate" "descending").1 = some [] ∧
    (search_papers (fun _ => NetResult.transportError) 5 0 2025 "q"
      SearchMode.LATEST 5 none none none).1 = [] :=
  ⟨((index_search_contract (fun _ => NetResult.feed []) 0 0 2025 "q" 5
      "submittedDate" "descending").2.1 rfl).1,
    (index_search_contract (fun _ => NetResult.transportError) 5 0 2025 "q"
      5 "submittedDate" "descending").2.2 (fun _ => rfl)
      SearchMode.LATEST none none none⟩

/-- C6 counterexample: a transport error on the first call does not surface
as a failure or an empty result — the fallback issues a second HTTP request
and returns its hits, so the search is neither a single call nor
retry-free. -/
theorem index_search_retries_cex :
    (directArxivSearch
      (fun j => if j == 0 then NetResult.transportError
        else NetResult.feed [⟨"T", "L", "S", ["cs.AI"], ["A"]⟩])
      10 0 "q" 5 "submittedDate" "descending").2.length = 2 ∧
    (directArxivSearch
      (fun j => if j == 0 then NetResult.transportError
        else NetResult.feed [⟨"T", "L", "S", ["cs.AI"], ["A"]⟩])
      10 0 "q" 5 "submittedDate" "descending").1 =
      some [⟨"T", "L", "S", "cs.AI", "A"⟩] := by
  refine ⟨by decide, by decide⟩

end HomeSystem

namespace HomeSystem

/-- C7 counterexample: with a destination directory, `downloadPdf` writes to
`<dest>/<sanitized title>.pdf` — derived from the TITLE, not from the paper
id — refuting the claimed `dest_dir/<paper_id>/<paper_id>.pdf` naming; and
reuse returns an existing file even when it is empty. -/
theorem downloadPdf_title_naming_cex :
    (downloadPdf "My: Paper" "2401.00001" "http://arxiv.org/pdf/2401.00001"
        (some "dest") false false ⟨[]⟩ (some [1, 2, 3])).map
      DownloadOutcome.path = some (some "dest/My_ Paper.pdf") ∧
    (downloadPdf "My: Paper" "2401.00001" "http://arxiv.org/pdf/2401.00001"
        (some "dest") false false ⟨[]⟩ (some [1, 2, 3])).map
      DownloadOutcome.path ≠
      some (some "dest/2401.00001/2401.00001.pdf") ∧
    downloadPdf "T" "2401.00001" "http://arxiv.org/pdf/2401.00001"
        (some "d") false true ⟨[("d/T.pdf", [])]⟩ (some [9]) =
      some ⟨[], ⟨[("d/T.pdf", [])]⟩, 0, some "d/T.pdf"⟩ := by
  refine ⟨by decide, by decide, by decide⟩

/-- C7 (amended): under a destination directory `downloadPdf` streams to
`<dest>/<sanitized title>.pdf` (title-derived) and returns the bytes; the
paper-id-derived `<base>/<paper_id>/<paper_id>.pdf` name is used only with
`use_standard_path` under the fixed base directory; when `check_existing`
is set and the target file exists — empty or not — its contents are
returned with zero network calls; and the analysis service skips its own
download whenever `<paper_folder>/<arxiv_id>.pdf` already exists. -/
theorem downloadPdf_contract :
    (∀ (title arxiv_id pdf_link d : String) (fs : FileSys) (bs : List Nat),
      pdf_link ≠ "" →
      downloadPdf title arxiv_id pdf_link (some d) false false fs (some bs) =
        some ⟨bs,
          fs.write (d ++ "/" ++
            sanitizeTitle (if title == "" then "无标题" else title) ++
            ".pdf") bs, 2,
          some (d ++ "/" ++
            sanitizeTitle (if title == "" then "无标题" else title) ++
            ".pdf")⟩) ∧
    (∀ (title arxiv_id pdf_link : String) (fs : FileSys)
      (net : Option (List Nat)) (out : DownloadOutcome),
      pdf_link ≠ "" → arxiv_id ≠ "" →
      downloadPdf title arxiv_id pdf_link none true false fs net = some out →
      out.path =
        some (stdPaperBase ++ "/" ++ arxiv_id ++ "/" ++ arxiv_id ++
          ".pdf")) ∧
    (∀ (title arxiv_id pdf_link d : String) (fs : FileSys)
      (net : Option (List Nat)) (content : List Nat),
      pdf_link ≠ "" →
      fs.read (d ++ "/" ++
        sanitizeTitle (if title == "" then "无标题" else title) ++ ".pdf") =
        some content →
      downloadPdf title arxiv_id pdf_link (some d) false true fs net =
        some ⟨content, fs, 0,
          some (d ++ "/" ++
            sanitizeTitle (if title == "" then "无标题" else title) ++
            ".pdf")⟩) ∧
    (∀ (arxiv_id title paper_folder : String) (fs : FileSys)
      (net : Option (List Nat)) (c : List Nat),
      fs.read (paper_folder ++ "/" ++ arxiv_id ++ ".pdf") = some c →
      download_paper_pdf arxiv_id title paper_folder fs net = (true, fs)) := by
  refine ⟨?_, ?_, ?_, ?_⟩
  · intro title arxiv_id pdf_link d fs bs hl
    unfold downloadPdf
    rw [if_neg (by simpa using hl)]
    rfl
  · intro title arxiv_id pdf_link fs net out hl hid hout
    unfold downloadPdf at hout
    rw [if_neg (by simpa using hl)] at hout
    dsimp only at hout
    rw [if_pos (by simp [hid])] at hout
    rcases net with _ | bs
    · simp at hout
    · dsimp only at hout
      rw [← Option.some.inj hout]
  · intro title arxiv_id pdf_link d fs net content hl hread
    unfold downloadPdf
    rw [if_neg (by simpa using hl)]
    dsimp only
    rw [hread]
    rfl
  · intro arxiv_id title paper_folder fs net c hread
    unfold download_paper_pdf
    dsimp only
    rw [hread]

end HomeSystem

namespace HomeSystem

/-- C7 witness: the amended contract applied at concrete inputs — a
download under a destination directory, a standard-path download, a reuse
of an existing (non-empty) file without network calls, and the service's
skip of an already-present standard file. -/
theorem downloadPdf_contract_witness :
    downloadPdf "My Paper" "2401.00001" "http://arxiv.org/pdf/2401.00001"
        (some "dest") false false ⟨[]⟩ (some [1, 2]) =
      some ⟨[1, 2], FileSys.write ⟨[]⟩ "dest/My Paper.pdf" [1, 2], 2,
        some "dest/My Paper.pdf"⟩ ∧
    downloadPdf "T" "2401.00001" "http://arxiv.org/pdf/2401.00001" (some "d")
        false true ⟨[("d/T.pdf", [7])]⟩ none =
      some ⟨[7], ⟨[("d/T.pdf", [7])]⟩, 0, some "d/T.pdf"⟩ ∧
    download_paper_pdf "2401.00001" "T" "/data/p"
        ⟨[("/data/p/2401.00001.pdf", [7])]⟩ none =
      (true, ⟨[("/data/p/2401.00001.pdf", [7])]⟩) := by
  refine ⟨?_, ?_, ?_⟩
  · have h := downloadPdf_contract.1 "My Paper" "2401.00001"
      "http://arxiv.org/pdf/2401.00001" "dest" ⟨[]⟩ [1, 2] (by decide)
    rw [h]
    rfl
  · have h := downloadPdf_contract.2.2.1 "T" "2401.00001"
      "http://arxiv.org/pdf/2401.00001" "d" ⟨[("d/T.pdf", [7])]⟩ none [7]
      (by decide) (by decide)
    rw [h]
    rfl
  · exact downloadPdf_contract.2.2.2 "2401.00001" "T" "/data/p"
      ⟨[("/data/p/2401.00001.pdf", [7])]⟩ none [7] (by decide)

end HomeSystem

namespace HomeSystem

/-! ### JSON round-trip lemmas -/

mutual
/-- Serialisation is the identity on JSON-pure values. -/
theorem encodeJ_pure : ∀ (v : JValue), pureJ v = true → encodeJ v = v
  | .null, _ => rfl
  | .bool _, _ => rfl
  | .num _, _ => rfl
  | .str _, _ => rfl
  | .arr l, h => by
      rw [encodeJ, encodeArr_pure l (by simpa [pureJ] using h)]
  | .dict l, h => by
      rw [encodeJ, encodeDict_pure l (by simpa [pureJ] using h)]
  | .mode _, h => by simp [pureJ] at h

/-- Serialisation is the identity on pure JSON arrays. -/
theorem encodeArr_pure : ∀ (l : List JValue), pureArr l = true →
    encodeArr l = l
  | [], _ => rfl
  | v :: vs, h => by
      have h2 : pureJ v = true ∧ pureArr vs = true := by
        simpa [pureArr] using h
      rw [encodeArr, encodeJ_pure v h2.1, encodeArr_pure vs h2.2]

/-- Serialisation is the identity on pure JSON objects. -/
theorem encodeDict_pure : ∀ (l : ConfigDict), pureDict l = true →
    encodeDict l = l
  | [], _ => rfl
  | (k, v) :: vs, h => by
      have h2 : pureJ v = true ∧ pureDict vs = true := by
        simpa [pureDict] using h
      rw [encodeDict, encodeJ_pure v h2.1, encodeDict_pure vs h2.2]
end

theorem encodeDict_setKey (c : ConfigDict) (k : String) (v : JValue) :
    encodeDict (setKey c k v) = setKey (encodeDict c) k (encodeJ v) := by
  induction c with
  | nil => rfl
  | cons p rest ih =>
    obtain ⟨pk, pv⟩ := p
    by_cases hp : pk == k
    · simp [setKey, hp, encodeDict]
    · simp [setKey, hp, encodeDict, ih]

theorem pureDict_setKey (c : ConfigDict) (k : String) (v : JValue)
    (hc : pureDict c = true) (hv : pureJ v = true) :
    pureDict (setKey c k v) = true := by
  induction c with
  | nil => simpa [setKey, pureDict]
  | cons p rest ih =>
    obtain ⟨pk, pv⟩ := p
    have h2 : pureJ pv = true ∧ pureDict rest = true := by
      simpa [pureDict] using hc
    by_cases hp : pk == k
    · simp [setKey, hp, pureDict, hv, h2.2]
    · simp [setKey, hp, pureDict, h2.1, ih h2.2]

theorem pureDict_applyDefault (c : ConfigDict) (kd : String × JValue)
    (hc : pureDict c = true) (hv : pureJ kd.2 = true) :
    pureDict (applyDefault c kd) = true := by
  unfold applyDefault
  repeat' split
  all_goals first
    | exact pureDict_setKey c kd.1 kd.2 hc hv
    | exact hc

theorem pureDict_mem (c : ConfigDict) (hc : pureDict c = true) :
    ∀ kd ∈ c, pureJ kd.2 = true := by
  induction c with
  | nil => intro kd h; simp at h
  | cons p rest ih =>
    intro kd h
    have h2 : pureJ p.2 = true ∧ pureDict rest = true := by
      obtain ⟨pk, pv⟩ := p
      simpa [pureDict] using hc
    rcases List.mem_cons.mp h with h | h
    · subst h; exact h2.1
    · exact ih h2.2 kd h

theorem pureDict_foldl (l : List (String × JValue)) (c : ConfigDict)
    (hc : pureDict c = true) (hl : ∀ kd ∈ l, pureJ kd.2 = true) :
    pureDict (l.foldl applyDefault c) = true := by
  induction l generalizing c with
  | nil => exact hc
  | cons kd rest ih =>
    simp only [List.foldl_cons]
    exact ih (applyDefault c kd)
      (pureDict_applyDefault c kd hc (hl kd (List.mem_cons_self kd rest)))
      (fun x hx => hl x (List.mem_cons_of_mem kd hx))

theorem pureDict_VERSION_DEFAULTS (ver : String) :
    pureDict (VERSION_DEFAULTS ver) = true := by
  unfold VERSION_DEFAULTS
  split_ifs <;> decide

theorem pureDict_applyVersionDefaults (c : ConfigDict) (ver : String)
    (hc : pureDict c = true) :
    pureDict (applyVersionDefaults c ver) = true :=
  pureDict_foldl _ c hc
    (pureDict_mem _ (pureDict_VERSION_DEFAULTS ver))

theorem pureDict_path_foldl (path : List String) (c : ConfigDict)
    (hc : pureDict c = true) :
    pureDict (path.foldl applyVersionDefaults c) = true := by
  induction path generalizing c with
  | nil => exact hc
  | cons ver rest ih =>
    simp only [List.foldl_cons]
    exact ih _ (pureDict_applyVersionDefaults c ver hc)

theorem SearchMode.ofValue_value : ∀ m : SearchMode,
    SearchMode.ofValue m.value = some m := by
  intro m
  cases m <;> rfl

end HomeSystem

namespace HomeSystem

/-- Shape of one upgrade: `ensure_config_compatibility` builds a stamped
dictionary `S` (pure whenever the input was) and then re-hydrates a string
`search_mode`. -/
theorem ensure_shape (C : ConfigDict) :
    ∃ S : ConfigDict,
      (pureDict C = true → pureDict S = true) ∧
      getVal S "_version" = some (JValue.str CURRENT_VERSION) ∧
      ensure_config_compatibility C =
        (match getVal S "search_mode" with
         | some (JValue.str s) =>
            setKey S "search_mode"
              (match SearchMode.ofValue s with
               | some m => JValue.mode m
               | none => JValue.mode SearchMode.LATEST)
         | _ => S) := by
  refine ⟨setKey ((match (getVal C "_version").getD (JValue.str "1.0.0") with
      | JValue.str v => get_upgrade_path v CURRENT_VERSION
      | _ => [CURRENT_VERSION]).foldl applyVersionDefaults C) "_version"
      (JValue.str CURRENT_VERSION), ?_, ?_, ?_⟩
  · intro hc
    exact pureDict_setKey _ _ _ (pureDict_path_foldl _ C hc) rfl
  · exact getVal_setKey_self _ _ _
  · rfl

/-- A dictionary already stamped with the current version is upgraded by the
search-mode re-hydration alone: the upgrade path is empty and the stamp
rewrites the existing binding in place. -/
theorem ensure_current (E : ConfigDict)
    (hver : getVal E "_version" = some (JValue.str CURRENT_VERSION)) :
    ensure_config_compatibility E =
      (match getVal E "search_mode" with
       | some (JValue.str s) =>
          setKey E "search_mode"
            (match SearchMode.ofValue s with
             | some m => JValue.mode m
             | none => JValue.mode SearchMode.LATEST)
       | _ => E) := by
  unfold ensure_config_compatibility
  rw [hver]
  dsimp only [Option.getD]
  have hpath : get_upgrade_path CURRENT_VERSION CURRENT_VERSION = [] := rfl
  rw [hpath]
  simp only [List.foldl_nil]
  rw [setKey_id E "_version" (JValue.str CURRENT_VERSION) hver]

/-- C9: config upgrading is idempotent across a store/load round-trip —
serialising an upgraded config to JSON (`CustomJSONEncoder` turns the
search-mode enum back into its value string) and upgrading the reloaded
dictionary reproduces the upgraded config exactly, for every JSON-pure
stored config. -/
theorem config_upgrade_roundtrip (C : ConfigDict)
    (hpure : pureDict C = true) :
    ensure_config_compatibility
      (storeRoundTrip (ensure_config_compatibility C)) =
      ensure_config_compatibility C := by
  obtain ⟨S, hSpure0, hSver, hD⟩ := ensure_shape C
  have hSpure : pureDict S = true := hSpure0 hpure
  have hvs : ("_version" : String) ≠ "search_mode" := by decide
  rcases hsm : getVal S "search_mode" with _ | v
  · rw [hD, hsm]
    unfold storeRoundTrip
    rw [encodeDict_pure S hSpure, ensure_current S hSver, hsm]
  · rcases v with _ | b | q | s | l | l | m
    case str =>
      rw [hD, hsm]
      dsimp only
      rcases hos : SearchMode.ofValue s with _ | m0 <;> dsimp only
      · have he : encodeJ (JValue.mode SearchMode.LATEST) =
            JValue.str "latest" := rfl
        have ho : SearchMode.ofValue "latest" = some SearchMode.LATEST := rfl
        unfold storeRoundTrip
        rw [encodeDict_setKey, encodeDict_pure S hSpure, he]
        rw [ensure_current _ (by rw [getVal_setKey_ne _ _ _ _ hvs]; exact hSver)]
        rw [getVal_setKey_self]
        dsimp only
        rw [ho]
        rw [setKey_setKey]
      · have he : encodeJ (JValue.mode m0) = JValue.str m0.value := rfl
        unfold storeRoundTrip
        rw [encodeDict_setKey, encodeDict_pure S hSpure, he]
        rw [ensure_current _ (by rw [getVal_setKey_ne _ _ _ _ hvs]; exact hSver)]
        rw [getVal_setKey_self]
        dsimp only
        rw [SearchMode.ofValue_value m0]
        rw [setKey_setKey]
    all_goals (
      rw [hD, hsm]
      dsimp only
      unfold storeRoundTrip
      rw [encodeDict_pure S hSpure, ensure_current S hSver, hsm])

/-- C9 witness: the round-trip theorem applied to a concrete stored 1.0.0
config. -/
theorem config_upgrade_roundtrip_witness :
    pureDict [("_version", JValue.str "1.0.0"),
      ("search_query", JValue.str "q")] = true ∧
    ensure_config_compatibility (storeRoundTrip (ensure_config_compatibility
      [("_version", JValue.str "1.0.0"), ("search_query", JValue.str "q")])) =
      ensure_config_compatibility
        [("_version", JValue.str "1.0.0"), ("search_query", JValue.str "q")] :=
  ⟨rfl, config_upgrade_roundtrip _ rfl⟩

end HomeSystem
